import Mathlib

/-!
Shallow embedding of `src/mksservo42c_10/mksservo42c.py`: the `MKSServo42C`
driver for the MKS Servo 42C stepper controller (firmware 1.0).

Modelling conventions:

* Python `bytes` values are `List Nat`, one entry per byte.
* `v.to_bytes(len, 'big')` is `toBytes len v : Except PyErr (List Nat)`; it
  raises `OverflowError` outside `0 ≤ v < 256 ^ len`, as Python does.
* `int.from_bytes(bs, 'big', signed)` is `fromBytesBE` / `fromBytesBESigned`.
* The serial transport (pyserial) is an external collaborator.  A call
  `self._ser.read(n)` returns up to `n` bytes before the timeout; it is
  modelled by the caller supplying `reply`, the bytes the device makes
  available, of which the operation consumes at most `n` (`pyRead`).
* Every driver method is a function returning `Except PyErr r`.  For the
  motion/configuration methods `.error e` means the Python method raises `e`
  before the single `self._ser.write` call, so nothing reaches the transport;
  on success the result carries the frame written and the reply length read.
  For the read methods the command packet is always written first, and
  `.error .indexError` (only `read_motor_shaft_status`) is raised after the
  write, while decoding the reply.
* Python `|` on integers is two's-complement bitwise or, i.e. `Int.lor`.
-/

/-- Python exception kinds the driver can raise.  `valueError` is Python's
`ValueError` (the spec names this error kind `InvalidArgument`);
`connectionError` is the transport open failure surfaced at construction
(pyserial's exception, which the spec maps to `ConnectionError`). -/
inductive PyErr : Type
  | valueError
  | overflowError
  | indexError
  | connectionError
  deriving DecidableEq, Repr

/-- Big-endian byte list of width `len` of a natural number (byte `i` from the
left is `n / 256^(len-1-i) % 256`); used after the range check of `toBytes`,
and directly for the opcode constants, which are all single in-range bytes. -/
def bytesBE : Nat → Nat → List Nat
  | 0, _ => []
  | k + 1, n => n / 256 ^ k % 256 :: bytesBE k n

/-- Python `v.to_bytes(len, 'big')`: raises `OverflowError` unless
`0 ≤ v < 256 ^ len`. -/
def toBytes (len : Nat) (v : Int) : Except PyErr (List Nat) :=
  if 0 ≤ v ∧ v < (256 : Int) ^ len then .ok (bytesBE len v.toNat)
  else .error .overflowError

/-- Python `int.from_bytes(bs, byteorder='big', signed=False)`. -/
def fromBytesBE (bs : List Nat) : Nat :=
  bs.foldl (fun acc b => acc * 256 + b) 0

/-- Python `int.from_bytes(bs, byteorder='big', signed=True)`: two's
complement, negative exactly when the leading byte has its high bit set
(`0` on the empty byte string, as in Python). -/
def fromBytesBESigned (bs : List Nat) : Int :=
  if 128 ≤ bs.headD 0 then (fromBytesBE bs : Int) - 256 ^ bs.length
  else (fromBytesBE bs : Int)

/-- Transport read `self._ser.read(n)`: the transport hands back at most `n` of the bytes
the device makes available. -/
def pyRead (reply : List Nat) (n : Nat) : List Nat := reply.take n

/-- Python slice `l[a:b]`. -/
def pySlice (l : List Nat) (a b : Nat) : List Nat := (l.take b).drop a

/-- The driver object: the configuration fields `__init__` stores.  The float
read-timeout is transport configuration that never affects frame contents or
decoding and is not modelled. -/
structure MKSServo42C where
  _port : String
  _baudrate : Nat
  _address : Nat
  _position : Int
  _acceleration : Int
  _speed : Int

namespace MKSServo42C

def _READ_ENCODER_VALUE : Nat := 0x30

def _READ_NUMBER_OF_PULSES_RECEIVED : Nat := 0x33

def _READ_MOTOR_SHAFT_ANGLE : Nat := 0x36

def _READ_MOTOR_SHAFT_ERROR_ANGLE : Nat := 0x39

def _READ_EN_PIN_STATUS : Nat := 0x3A

def _READ_MOTOR_SHAFT_STATUS : Nat := 0x3E

def _WRITE_SET_SUBDIVISON : Nat := 0x84

def _WRITE_SET_ACTIVE_EN_PIN : Nat := 0x85

def _WRITE_SET_EN_PIN_STATUS : Nat := 0xF3

def _WRITE_RUN_CONSTANT_SPEED : Nat := 0xF6

def _WRITE_STOP_MOTOR : Nat := 0xF7

def _WRITE_RUN_MOTOR_TO_POSITION : Nat := 0xFD

def _WRITE_SAVE_CLEAR_F6_STATUS : Nat := 0xFF

/-- Constructor `__init__(port, baudrate, timeout, address)`: stores the configuration,
then constructs the pyserial transport — which, given a port name, opens the
port at once and raises if it cannot be opened; nothing in `__init__` catches
that, so it propagates to the caller with no retry (`portOpens` is the
environment's verdict on that single open attempt).  On success `connect()`
finds `self._ser.is_open` true and does nothing.  `self._position` is first
set to `0` and then reassigned `-1`. -/
def init (port : String) (baudrate : Nat) (address : Nat) (portOpens : Bool) :
    Except PyErr MKSServo42C :=
  if portOpens then
    .ok { _port := port, _baudrate := baudrate, _address := address,
          _position := -1, _acceleration := 0, _speed := 0 }
  else .error .connectionError

/-- Helper `calculate_checksum(data)`: join the byte chunks and take
`sum(packed) & 0xFF`. -/
def calculate_checksum (data : List (List Nat)) : Nat :=
  (data.flatten.foldl (· + ·) 0) % 256

/-- Method `read_motor_shaft_status`: write `[address, 0x3E]`, read up to 2 reply
bytes, return `response[1]` — Python indexing, which raises `IndexError`
when the reply holds fewer than 2 bytes. -/
def read_motor_shaft_status (s : MKSServo42C) (reply : List Nat) :
    Except PyErr (List Nat × Nat) :=
  match toBytes 1 (s._address : Int) with
  | .error e => .error e
  | .ok addr =>
    let commandpacket := [addr, bytesBE 1 _READ_MOTOR_SHAFT_STATUS]
    let packet_bytes := commandpacket.flatten
    let response := pyRead reply 2
    match response.get? 1 with
    | some b => .ok (packet_bytes, b)
    | none => .error .indexError

/-- Method `read_motor_shaft_angle`: write `[address, 0x36]`, read up to 5 reply
bytes, decode `response[1:5]` as an unsigned big-endian integer. -/
def read_motor_shaft_angle (s : MKSServo42C) (reply : List Nat) :
    Except PyErr (List Nat × Int) :=
  match toBytes 1 (s._address : Int) with
  | .error e => .error e
  | .ok addr =>
    let packet_bytes := List.flatten [addr, bytesBE 1 _READ_MOTOR_SHAFT_ANGLE]
    let response := pyRead reply 5
    .ok (packet_bytes, (fromBytesBE (pySlice response 1 5) : Int))

/-- Method `read_motor_shaft_error_angle`: write `[address, 0x39]`, read up to 3
reply bytes, decode `response[1:3]` as a signed big-endian integer. -/
def read_motor_shaft_error_angle (s : MKSServo42C) (reply : List Nat) :
    Except PyErr (List Nat × Int) :=
  match toBytes 1 (s._address : Int) with
  | .error e => .error e
  | .ok addr =>
    let packet_bytes :=
      List.flatten [addr, bytesBE 1 _READ_MOTOR_SHAFT_ERROR_ANGLE]
    let response := pyRead reply 3
    .ok (packet_bytes, fromBytesBESigned (pySlice response 1 3))

/-- Method `read_pulses_received`: write `[address, 0x33]`, read up to 5 reply
bytes, decode `response[1:5]` as a signed big-endian integer. -/
def read_pulses_received (s : MKSServo42C) (reply : List Nat) :
    Except PyErr (List Nat × Int) :=
  match toBytes 1 (s._address : Int) with
  | .error e => .error e
  | .ok addr =>
    let packet_bytes :=
      List.flatten [addr, bytesBE 1 _READ_NUMBER_OF_PULSES_RECEIVED]
    let response := pyRead reply 5
    .ok (packet_bytes, fromBytesBESigned (pySlice response 1 5))

/-- Method `get_encoder_value`: write `[address, 0x30]`, read up to 3 reply bytes,
decode nothing — the Python method has no `return` statement and yields
`None`. -/
def get_encoder_value (s : MKSServo42C) (reply : List Nat) :
    Except PyErr (List Nat × Option Int) :=
  match toBytes 1 (s._address : Int) with
  | .error e => .error e
  | .ok addr =>
    let packet_bytes := List.flatten [addr, bytesBE 1 _READ_ENCODER_VALUE]
    let _response := pyRead reply 3
    .ok (packet_bytes, none)

/-- Method `set_subdivision(subdivision)`: frame `[address, 0x84, subdivision]`
(the checksum append is commented out in the source), then read up to 2
reply bytes.  Result: (frame written, reply length). -/
def set_subdivision (s : MKSServo42C) (subdivision : Int) :
    Except PyErr (List Nat × Nat) :=
  match toBytes 1 (s._address : Int) with
  | .error e => .error e
  | .ok addr =>
    match toBytes 1 subdivision with
    | .error e => .error e
    | .ok subdivisionB =>
      let commandpacket := [addr, bytesBE 1 _WRITE_SET_SUBDIVISON, subdivisionB]
      .ok (commandpacket.flatten, 2)

/-- Method `move_to(dir, speed, position)`: direction check first (`ValueError`
outside `{CW, CCW}`), `CW` sets bit `0x80` of the speed, `CCW` leaves it;
then `speed.to_bytes(1)`, and the frame
`[address, 0xFD, speed byte, position.to_bytes(2)]`; read up to 2 reply
bytes. -/
def move_to (s : MKSServo42C) (dir : String) (speed position : Int) :
    Except PyErr (List Nat × Nat) :=
  match (if dir = "CCW" then .ok speed
         else if dir = "CW" then .ok (Int.lor speed 0x80)
         else .error .valueError : Except PyErr Int) with
  | .error e => .error e
  | .ok speed2 =>
    match toBytes 1 speed2 with
    | .error e => .error e
    | .ok speedB =>
      match toBytes 1 (s._address : Int) with
      | .error e => .error e
      | .ok addr =>
        match toBytes 2 position with
        | .error e => .error e
        | .ok positionB =>
          let commandpacket :=
            [addr, bytesBE 1 _WRITE_RUN_MOTOR_TO_POSITION, speedB, positionB]
          .ok (commandpacket.flatten, 2)

/-- Method `move(direction, speed)`: direction check first (`ValueError` outside
`{CW, CCW}`), `CW` sets bit `0x80` of the speed, `CCW` leaves it; frame
`[address, 0xF6, speed byte]`; read up to 2 reply bytes. -/
def move (s : MKSServo42C) (direction : String) (speed : Int) :
    Except PyErr (List Nat × Nat) :=
  match (if direction = "CCW" then .ok speed
         else if direction = "CW" then .ok (Int.lor speed 0x80)
         else .error .valueError : Except PyErr Int) with
  | .error e => .error e
  | .ok speed2 =>
    match toBytes 1 (s._address : Int) with
    | .error e => .error e
    | .ok addr =>
      match toBytes 1 speed2 with
      | .error e => .error e
      | .ok speedB =>
        .ok (List.flatten [addr, bytesBE 1 _WRITE_RUN_CONSTANT_SPEED, speedB], 2)

/-- Method `stop()`: frame `[address, 0xF7]`, read up to 2 reply bytes. -/
def stop (s : MKSServo42C) : Except PyErr (List Nat × Nat) :=
  match toBytes 1 (s._address : Int) with
  | .error e => .error e
  | .ok addr => .ok (List.flatten [addr, bytesBE 1 _WRITE_STOP_MOTOR], 2)

/-- Method `set_en_pin_status(status)`: frame `[address, 0xF3, status]`, read up to
3 reply bytes. -/
def set_en_pin_status (s : MKSServo42C) (status : Int) :
    Except PyErr (List Nat × Nat) :=
  match toBytes 1 (s._address : Int) with
  | .error e => .error e
  | .ok addr =>
    match toBytes 1 status with
    | .error e => .error e
    | .ok statusB =>
      let commandpacket := [addr, bytesBE 1 _WRITE_SET_EN_PIN_STATUS, statusB]
      .ok (commandpacket.flatten, 3)

/-- Method `set_active_of_en_pin(active)`: frame `[address, 0x85, active]`, then —
uniquely among all operations — `calculate_checksum` of that packet is
appended as a trailing byte; read up to 3 reply bytes. -/
def set_active_of_en_pin (s : MKSServo42C) (active : Int) :
    Except PyErr (List Nat × Nat) :=
  match toBytes 1 (s._address : Int) with
  | .error e => .error e
  | .ok addr =>
    match toBytes 1 active with
    | .error e => .error e
    | .ok activeB =>
      let commandpacket := [addr, bytesBE 1 _WRITE_SET_ACTIVE_EN_PIN, activeB]
      let checksum := calculate_checksum commandpacket
      .ok ((commandpacket ++ [bytesBE 1 checksum]).flatten, 3)

end MKSServo42C

/-- Transport writes performed by a motion/configuration call: one write of
the frame on success, none when the call raises (every raise in those methods
happens before the `self._ser.write`). -/
def writesOf (r : Except PyErr (List Nat × Nat)) : List (List Nat) :=
  match r with
  | .ok (f, _) => [f]
  | .error _ => []

/-- Length of the transmitted frame of a motion/configuration call, `none`
when the call raises before writing. -/
def frameLen (r : Except PyErr (List Nat × Nat)) : Option Nat :=
  match r with
  | .ok (f, _) => some f.length
  | .error _ => none

/-- Number of reply bytes a motion/configuration call blocks reading after
its write, `none` when the call raises before writing. -/
def readLenOf (r : Except PyErr (List Nat × Nat)) : Option Nat :=
  match r with
  | .ok (_, n) => some n
  | .error _ => none

/-- A link with the default device address `0xE0`. -/
def e0Link : MKSServo42C :=
  { _port := "/dev/ttyUSB0", _baudrate := 9600, _address := 0xE0,
    _position := -1, _acceleration := 0, _speed := 0 }

/-! ### Helper lemmas about the byte conversions -/

theorem toBytes1_ok (v : Int) (h0 : 0 ≤ v) (h1 : v < 256) :
    toBytes 1 v = .ok [v.toNat] := by
  have hc : 0 ≤ v ∧ v < (256 : Int) ^ 1 := ⟨h0, by rwa [pow_one]⟩
  have hm : v.toNat % 256 = v.toNat := Nat.mod_eq_of_lt (by omega)
  simp only [toBytes, if_pos hc, bytesBE, pow_zero, Nat.div_one, hm]

theorem toBytes1_ofNat (a : Nat) (h : a < 256) : toBytes 1 (a : Int) = .ok [a] := by
  have := toBytes1_ok (a : Int) (Int.ofNat_nonneg a) (by exact_mod_cast h)
  simpa using this

theorem toBytes2_ok (v : Int) (h0 : 0 ≤ v) (h1 : v < 65536) :
    toBytes 2 v = .ok [v.toNat / 256 % 256, v.toNat % 256] := by
  have hp : (256 : Int) ^ 2 = 65536 := by norm_num
  have hc : 0 ≤ v ∧ v < (256 : Int) ^ 2 := ⟨h0, by rwa [hp]⟩
  simp only [toBytes, if_pos hc, bytesBE, pow_zero, pow_one, Nat.div_one]

theorem toBytes1_err (v : Int) (h : v < 0 ∨ 255 < v) :
    toBytes 1 v = .error .overflowError := by
  have hc : ¬(0 ≤ v ∧ v < (256 : Int) ^ 1) := by
    rw [pow_one]
    omega
  simp only [toBytes, if_neg hc]

theorem toBytes2_err (v : Int) (h : v < 0 ∨ 65535 < v) :
    toBytes 2 v = .error .overflowError := by
  have hp : (256 : Int) ^ 2 = 65536 := by norm_num
  have hc : ¬(0 ≤ v ∧ v < (256 : Int) ^ 2) := by
    rw [hp]
    omega
  simp only [toBytes, if_neg hc]

theorem nat_lor_128 : ∀ m, m ≤ 127 → m ||| 128 = m + 128 := by decide

theorem int_lor_128 (v : Int) (h0 : 0 ≤ v) (h1 : v ≤ 127) :
    Int.lor v 128 = v + 128 := by
  obtain ⟨n, rfl⟩ := Int.eq_ofNat_of_zero_le h0
  have hn : n ≤ 127 := by exact_mod_cast h1
  have h2 : Int.lor (n : Int) (128 : Int) = ((n ||| 128 : Nat) : Int) := rfl
  rw [h2, nat_lor_128 n hn]
  push_cast
  ring

/-! ### Closed forms of the operations under in-range arguments -/

theorem stop_eq (s : MKSServo42C) (ha : s._address < 256) :
    MKSServo42C.stop s = .ok ([s._address, 0xF7], 2) := by
  unfold MKSServo42C.stop
  rw [toBytes1_ofNat s._address ha]
  rfl

theorem set_subdivision_eq (s : MKSServo42C) (v : Int)
    (ha : s._address < 256) (hv0 : 0 ≤ v) (hv1 : v < 256) :
    MKSServo42C.set_subdivision s v = .ok ([s._address, 0x84, v.toNat], 2) := by
  unfold MKSServo42C.set_subdivision
  rw [toBytes1_ofNat s._address ha, toBytes1_ok v hv0 hv1]
  rfl

theorem set_en_pin_status_eq (s : MKSServo42C) (v : Int)
    (ha : s._address < 256) (hv0 : 0 ≤ v) (hv1 : v < 256) :
    MKSServo42C.set_en_pin_status s v = .ok ([s._address, 0xF3, v.toNat], 3) := by
  unfold MKSServo42C.set_en_pin_status
  rw [toBytes1_ofNat s._address ha, toBytes1_ok v hv0 hv1]
  rfl

theorem set_active_of_en_pin_eq (s : MKSServo42C) (v : Int)
    (ha : s._address < 256) (hv0 : 0 ≤ v) (hv1 : v < 256) :
    MKSServo42C.set_active_of_en_pin s v =
      .ok ([s._address, 0x85, v.toNat,
            MKSServo42C.calculate_checksum [[s._address], [0x85], [v.toNat]]], 3) := by
  unfold MKSServo42C.set_active_of_en_pin
  rw [toBytes1_ofNat s._address ha, toBytes1_ok v hv0 hv1]
  simp [MKSServo42C.calculate_checksum, bytesBE, MKSServo42C._WRITE_SET_ACTIVE_EN_PIN]

theorem move_CCW_eq (s : MKSServo42C) (speed : Int)
    (ha : s._address < 256) (hs0 : 0 ≤ speed) (hs1 : speed < 256) :
    MKSServo42C.move s "CCW" speed = .ok ([s._address, 0xF6, speed.toNat], 2) := by
  have haddr := toBytes1_ofNat s._address ha
  have hsp := toBytes1_ok speed hs0 hs1
  simp [MKSServo42C.move, haddr, hsp, MKSServo42C._WRITE_RUN_CONSTANT_SPEED, bytesBE]

theorem move_CW_eq (s : MKSServo42C) (speed : Int)
    (ha : s._address < 256) (hs0 : 0 ≤ speed) (hs1 : speed ≤ 0x7F) :
    MKSServo42C.move s "CW" speed =
      .ok ([s._address, 0xF6, (Int.lor speed 0x80).toNat], 2) := by
  have haddr := toBytes1_ofNat s._address ha
  have hlor := int_lor_128 speed hs0 hs1
  have hspCW : toBytes 1 (Int.lor speed 0x80) = .ok [(Int.lor speed 0x80).toNat] := by
    rw [hlor]
    exact toBytes1_ok _ (by omega) (by omega)
  simp [MKSServo42C.move, haddr, hspCW, MKSServo42C._WRITE_RUN_CONSTANT_SPEED, bytesBE]

theorem move_to_CCW_eq (s : MKSServo42C) (speed pos : Int)
    (ha : s._address < 256) (hs0 : 0 ≤ speed) (hs1 : speed < 256)
    (hp0 : 0 ≤ pos) (hp1 : pos < 0x10000) :
    MKSServo42C.move_to s "CCW" speed pos =
      .ok ([s._address, 0xFD, speed.toNat,
            pos.toNat / 256 % 256, pos.toNat % 256], 2) := by
  have haddr := toBytes1_ofNat s._address ha
  have hsp := toBytes1_ok speed hs0 hs1
  have hpos := toBytes2_ok pos hp0 hp1
  simp [MKSServo42C.move_to, haddr, hsp, hpos,
    MKSServo42C._WRITE_RUN_MOTOR_TO_POSITION, bytesBE]

theorem move_to_CW_eq (s : MKSServo42C) (speed pos : Int)
    (ha : s._address < 256) (hs0 : 0 ≤ speed) (hs1 : speed ≤ 0x7F)
    (hp0 : 0 ≤ pos) (hp1 : pos < 0x10000) :
    MKSServo42C.move_to s "CW" speed pos =
      .ok ([s._address, 0xFD, (Int.lor speed 0x80).toNat,
            pos.toNat / 256 % 256, pos.toNat % 256], 2) := by
  have haddr := toBytes1_ofNat s._address ha
  have hlor := int_lor_128 speed hs0 hs1
  have hspCW : toBytes 1 (Int.lor speed 0x80) = .ok [(Int.lor speed 0x80).toNat] := by
    rw [hlor]
    exact toBytes1_ok _ (by omega) (by omega)
  have hpos := toBytes2_ok pos hp0 hp1
  simp [MKSServo42C.move_to, haddr, hspCW, hpos,
    MKSServo42C._WRITE_RUN_MOTOR_TO_POSITION, bytesBE]

theorem read_pulses_received_eq (s : MKSServo42C) (reply : List Nat)
    (ha : s._address < 256) :
    MKSServo42C.read_pulses_received s reply =
      .ok ([s._address, 0x33], fromBytesBESigned (pySlice (pyRead reply 5) 1 5)) := by
  unfold MKSServo42C.read_pulses_received
  rw [toBytes1_ofNat s._address ha]
  rfl

theorem read_motor_shaft_angle_eq (s : MKSServo42C) (reply : List Nat)
    (ha : s._address < 256) :
    MKSServo42C.read_motor_shaft_angle s reply =
      .ok ([s._address, 0x36], (fromBytesBE (pySlice (pyRead reply 5) 1 5) : Int)) := by
  unfold MKSServo42C.read_motor_shaft_angle
  rw [toBytes1_ofNat s._address ha]
  rfl

theorem read_motor_shaft_error_angle_eq (s : MKSServo42C) (reply : List Nat)
    (ha : s._address < 256) :
    MKSServo42C.read_motor_shaft_error_angle s reply =
      .ok ([s._address, 0x39], fromBytesBESigned (pySlice (pyRead reply 3) 1 3)) := by
  unfold MKSServo42C.read_motor_shaft_error_angle
  rw [toBytes1_ofNat s._address ha]
  rfl

theorem get_encoder_value_eq (s : MKSServo42C) (reply : List Nat)
    (ha : s._address < 256) :
    MKSServo42C.get_encoder_value s reply = .ok ([s._address, 0x30], none) := by
  unfold MKSServo42C.get_encoder_value
  rw [toBytes1_ofNat s._address ha]
  rfl

theorem read_motor_shaft_status_eq (s : MKSServo42C) (reply : List Nat)
    (ha : s._address < 256) :
    MKSServo42C.read_motor_shaft_status s reply =
      (match (pyRead reply 2).get? 1 with
       | some b => .ok ([s._address, 0x3E], b)
       | none => .error .indexError) := by
  unfold MKSServo42C.read_motor_shaft_status
  rw [toBytes1_ofNat s._address ha]
  rfl

/-! ### Claim theorems -/

/-- C2: against device address `0xE0`, `move_to("CW", 0x70, 0x0080)` performs
one transport write of exactly the five bytes `E0 FD F0 00 80`: address,
opcode `0xFD`, speed byte `0x70 | 0x80 = 0xF0`, and the position `0x0080` as
two big-endian bytes. -/
theorem C2_move_to_frame :
    MKSServo42C.move_to e0Link "CW" 0x70 0x0080 =
      .ok ([0xE0, 0xFD, 0xF0, 0x00, 0x80], 2) ∧
    writesOf (MKSServo42C.move_to e0Link "CW" 0x70 0x0080) =
      [[0xE0, 0xFD, 0xF0, 0x00, 0x80]] :=
  ⟨rfl, rfl⟩

/-- C3: per-opcode signedness of the multi-byte decoders: on the 5-byte reply
`E0 FF FF FF F0`, `read_pulses_received` (signed 32-bit) yields `-16` while
`read_motor_shaft_angle` (unsigned) yields `4294967280`; on the 3-byte reply
`E0 FF 00`, `read_motor_shaft_error_angle` (signed 16-bit) yields `-256`. -/
theorem C3_signedness_table :
    MKSServo42C.read_pulses_received e0Link [0xE0, 0xFF, 0xFF, 0xFF, 0xF0] =
      .ok ([0xE0, 0x33], -16) ∧
    MKSServo42C.read_motor_shaft_angle e0Link [0xE0, 0xFF, 0xFF, 0xFF, 0xF0] =
      .ok ([0xE0, 0x36], 4294967280) ∧
    MKSServo42C.read_motor_shaft_error_angle e0Link [0xE0, 0xFF, 0x00] =
      .ok ([0xE0, 0x39], -256) :=
  ⟨rfl, rfl, rfl⟩

/-- C6: against device address `0xE0`, `stop()` transmits exactly `E0 F7` and
`set_subdivision(0x08)` transmits exactly `E0 84 08` — address byte, opcode
byte, zero- or one-byte payload, nothing else. -/
theorem C6_stop_and_subdivision_frames :
    MKSServo42C.stop e0Link = .ok ([0xE0, 0xF7], 2) ∧
    writesOf (MKSServo42C.stop e0Link) = [[0xE0, 0xF7]] ∧
    MKSServo42C.set_subdivision e0Link 0x08 = .ok ([0xE0, 0x84, 0x08], 2) ∧
    writesOf (MKSServo42C.set_subdivision e0Link 0x08) = [[0xE0, 0x84, 0x08]] :=
  ⟨rfl, rfl, rfl, rfl⟩

/-- C8: when the underlying transport cannot be opened, constructing the
driver fails to the caller with the connection error mapped from the
transport's open failure; the model grants the constructor a single open
attempt, so no retry is possible.  When the port opens, construction succeeds
and stores the configuration. -/
theorem C8_init_connection_error (port : String) (baudrate address : Nat) :
    MKSServo42C.init port baudrate address false = .error .connectionError ∧
    MKSServo42C.init port baudrate address true =
      .ok { _port := port, _baudrate := baudrate, _address := address,
            _position := -1, _acceleration := 0, _speed := 0 } :=
  ⟨rfl, rfl⟩

/-- C1: for every direction token in `{CW, CCW}` and speed in `0..=0x7F`, the
speed byte `move` and `move_to` place in the transmitted frame is
`speed | 0x80` for `CW` and `speed` unchanged for `CCW`; for any other token
both raise `ValueError` (the error kind the spec names `InvalidArgument`) and
write zero bytes to the transport. -/
theorem C1_direction_encoding (s : MKSServo42C) (d : String) (speed pos : Int)
    (ha : s._address < 256) (hs0 : 0 ≤ speed) (hs1 : speed ≤ 0x7F)
    (hp0 : 0 ≤ pos) (hp1 : pos < 0x10000)
    (hd : ¬(d = "CW" ∨ d = "CCW")) :
    MKSServo42C.move s "CW" speed =
      .ok ([s._address, 0xF6, (Int.lor speed 0x80).toNat], 2) ∧
    MKSServo42C.move s "CCW" speed =
      .ok ([s._address, 0xF6, speed.toNat], 2) ∧
    MKSServo42C.move_to s "CW" speed pos =
      .ok ([s._address, 0xFD, (Int.lor speed 0x80).toNat,
            pos.toNat / 256 % 256, pos.toNat % 256], 2) ∧
    MKSServo42C.move_to s "CCW" speed pos =
      .ok ([s._address, 0xFD, speed.toNat,
            pos.toNat / 256 % 256, pos.toNat % 256], 2) ∧
    MKSServo42C.move s d speed = .error .valueError ∧
    MKSServo42C.move_to s d speed pos = .error .valueError ∧
    writesOf (MKSServo42C.move s d speed) = [] ∧
    writesOf (MKSServo42C.move_to s d speed pos) = [] := by
  push_neg at hd
  obtain ⟨hdCW, hdCCW⟩ := hd
  have hlor : Int.lor speed 0x80 = speed + 128 := int_lor_128 speed hs0 hs1
  have haddr := toBytes1_ofNat s._address ha
  have hsp : toBytes 1 speed = .ok [speed.toNat] :=
    toBytes1_ok speed hs0 (by omega)
  have hspCW : toBytes 1 (Int.lor speed 0x80) = .ok [(Int.lor speed 0x80).toNat] := by
    rw [hlor]
    exact toBytes1_ok _ (by omega) (by omega)
  have hpos := toBytes2_ok pos hp0 hp1
  refine ⟨?_, ?_, ?_, ?_, ?_, ?_, ?_, ?_⟩
  · simp [MKSServo42C.move, haddr, hspCW, MKSServo42C._WRITE_RUN_CONSTANT_SPEED,
      bytesBE]
  · simp [MKSServo42C.move, haddr, hsp, MKSServo42C._WRITE_RUN_CONSTANT_SPEED,
      bytesBE]
  · simp [MKSServo42C.move_to, haddr, hspCW, hpos,
      MKSServo42C._WRITE_RUN_MOTOR_TO_POSITION, bytesBE]
  · simp [MKSServo42C.move_to, haddr, hsp, hpos,
      MKSServo42C._WRITE_RUN_MOTOR_TO_POSITION, bytesBE]
  · simp [MKSServo42C.move, hdCW, hdCCW]
  · simp [MKSServo42C.move_to, hdCW, hdCCW]
  · simp [writesOf, MKSServo42C.move, hdCW, hdCCW]
  · simp [writesOf, MKSServo42C.move_to, hdCW, hdCCW]

/-- C1 witness: the theorem at address `0xE0`, speed `0x70`, position
`0x1234`, and the invalid token `"UP"`. -/
theorem C1_direction_encoding_witness :
    MKSServo42C.move e0Link "CW" 0x70 = .ok ([0xE0, 0xF6, 0xF0], 2) ∧
    MKSServo42C.move e0Link "CCW" 0x70 = .ok ([0xE0, 0xF6, 0x70], 2) ∧
    MKSServo42C.move_to e0Link "CW" 0x70 0x1234 =
      .ok ([0xE0, 0xFD, 0xF0, 0x12, 0x34], 2) ∧
    MKSServo42C.move_to e0Link "CCW" 0x70 0x1234 =
      .ok ([0xE0, 0xFD, 0x70, 0x12, 0x34], 2) ∧
    MKSServo42C.move e0Link "UP" 0x70 = .error .valueError ∧
    MKSServo42C.move_to e0Link "UP" 0x70 0x1234 = .error .valueError ∧
    writesOf (MKSServo42C.move e0Link "UP" 0x70) = [] ∧
    writesOf (MKSServo42C.move_to e0Link "UP" 0x70 0x1234) = [] :=
  C1_direction_encoding e0Link "UP" 0x70 0x1234 (by decide) (by decide)
    (by decide) (by decide) (by decide) (by decide)


/-- C4: the checksum helper is `sum of the frame bytes % 256` (`& 0xFF`), and
among all public operations only `set_active_of_en_pin` transmits a trailing
checksum byte: its frame is `[address, 0x85, active]` plus the checksum of
those three bytes as a fourth byte, while every other operation transmits its
frame with no checksum byte — exactly address byte, opcode byte and payload
(frame lengths 2, 3 or 5 for the writes; command packets of length 2 for the
reads). -/
theorem C4_checksum_wiring (s : MKSServo42C) (data : List (List Nat))
    (v speed pos : Int) (reply : List Nat)
    (ha : s._address < 256) (hv0 : 0 ≤ v) (hv1 : v < 256)
    (hs0 : 0 ≤ speed) (hs1 : speed ≤ 0x7F) (hp0 : 0 ≤ pos) (hp1 : pos < 0x10000) :
    MKSServo42C.calculate_checksum data = data.flatten.sum % 256 ∧
    MKSServo42C.set_active_of_en_pin s v =
      .ok ([s._address, 0x85, v.toNat,
            MKSServo42C.calculate_checksum [[s._address], [0x85], [v.toNat]]], 3) ∧
    frameLen (MKSServo42C.set_active_of_en_pin s v) = some 4 ∧
    frameLen (MKSServo42C.stop s) = some 2 ∧
    frameLen (MKSServo42C.set_subdivision s v) = some 3 ∧
    frameLen (MKSServo42C.set_en_pin_status s v) = some 3 ∧
    frameLen (MKSServo42C.move s "CW" speed) = some 3 ∧
    frameLen (MKSServo42C.move s "CCW" speed) = some 3 ∧
    frameLen (MKSServo42C.move_to s "CW" speed pos) = some 5 ∧
    frameLen (MKSServo42C.move_to s "CCW" speed pos) = some 5 ∧
    (∃ x, MKSServo42C.read_pulses_received s reply = .ok ([s._address, 0x33], x)) ∧
    (∃ x, MKSServo42C.read_motor_shaft_angle s reply = .ok ([s._address, 0x36], x)) ∧
    (∃ x, MKSServo42C.read_motor_shaft_error_angle s reply =
        .ok ([s._address, 0x39], x)) ∧
    (∃ x, MKSServo42C.get_encoder_value s reply = .ok ([s._address, 0x30], x)) ∧
    (MKSServo42C.read_motor_shaft_status s reply = .error .indexError ∨
      ∃ x, MKSServo42C.read_motor_shaft_status s reply =
        .ok ([s._address, 0x3E], x)) := by
  have hs256 : speed < 256 := by omega
  refine ⟨?_, set_active_of_en_pin_eq s v ha hv0 hv1, ?_, ?_, ?_, ?_, ?_, ?_, ?_,
    ?_, ⟨_, read_pulses_received_eq s reply ha⟩,
    ⟨_, read_motor_shaft_angle_eq s reply ha⟩,
    ⟨_, read_motor_shaft_error_angle_eq s reply ha⟩,
    ⟨_, get_encoder_value_eq s reply ha⟩, ?_⟩
  · simp [MKSServo42C.calculate_checksum, List.sum_eq_foldl]
  · rw [set_active_of_en_pin_eq s v ha hv0 hv1]
    rfl
  · rw [stop_eq s ha]
    rfl
  · rw [set_subdivision_eq s v ha hv0 hv1]
    rfl
  · rw [set_en_pin_status_eq s v ha hv0 hv1]
    rfl
  · rw [move_CW_eq s speed ha hs0 hs1]
    rfl
  · rw [move_CCW_eq s speed ha hs0 hs256]
    rfl
  · rw [move_to_CW_eq s speed pos ha hs0 hs1 hp0 hp1]
    rfl
  · rw [move_to_CCW_eq s speed pos ha hs0 hs256 hp0 hp1]
    rfl
  · rw [read_motor_shaft_status_eq s reply ha]
    cases hg : (pyRead reply 2).get? 1 with
    | none =>
      left
      rfl
    | some b =>
      right
      exact ⟨b, rfl⟩

/-- C4 witness: the theorem at address `0xE0` with concrete payloads. -/
theorem C4_checksum_wiring_witness :
    MKSServo42C.calculate_checksum [[1], [2], [3]] =
      ([[1], [2], [3]] : List (List Nat)).flatten.sum % 256 ∧
    MKSServo42C.set_active_of_en_pin e0Link 1 =
      .ok ([0xE0, 0x85, 1,
            MKSServo42C.calculate_checksum [[0xE0], [0x85], [1]]], 3) ∧
    frameLen (MKSServo42C.set_active_of_en_pin e0Link 1) = some 4 ∧
    frameLen (MKSServo42C.stop e0Link) = some 2 ∧
    frameLen (MKSServo42C.set_subdivision e0Link 1) = some 3 ∧
    frameLen (MKSServo42C.set_en_pin_status e0Link 1) = some 3 ∧
    frameLen (MKSServo42C.move e0Link "CW" 0x70) = some 3 ∧
    frameLen (MKSServo42C.move e0Link "CCW" 0x70) = some 3 ∧
    frameLen (MKSServo42C.move_to e0Link "CW" 0x70 0x1234) = some 5 ∧
    frameLen (MKSServo42C.move_to e0Link "CCW" 0x70 0x1234) = some 5 ∧
    (∃ x, MKSServo42C.read_pulses_received e0Link [0xE0, 7] =
        .ok ([0xE0, 0x33], x)) ∧
    (∃ x, MKSServo42C.read_motor_shaft_angle e0Link [0xE0, 7] =
        .ok ([0xE0, 0x36], x)) ∧
    (∃ x, MKSServo42C.read_motor_shaft_error_angle e0Link [0xE0, 7] =
        .ok ([0xE0, 0x39], x)) ∧
    (∃ x, MKSServo42C.get_encoder_value e0Link [0xE0, 7] =
        .ok ([0xE0, 0x30], x)) ∧
    (MKSServo42C.read_motor_shaft_status e0Link [0xE0, 7] = .error .indexError ∨
      ∃ x, MKSServo42C.read_motor_shaft_status e0Link [0xE0, 7] =
        .ok ([0xE0, 0x3E], x)) :=
  C4_checksum_wiring e0Link [[1], [2], [3]] 1 0x70 0x1234 [0xE0, 7] (by decide)
    (by decide) (by decide) (by decide) (by decide) (by decide) (by decide)

/-- C5 counterexample: `read_motor_shaft_status` on the empty reply (a
complete timeout) raises `IndexError` rather than returning a numeric
result, so not every public read operation decodes a short reply without
raising. -/
theorem C5_counterexample_status_raises :
    MKSServo42C.read_motor_shaft_status e0Link [] = .error .indexError := rfl

/-- C5 (amended): `read_pulses_received`, `read_motor_shaft_angle` and
`read_motor_shaft_error_angle` decode every received reply as-is — down to
the empty reply — and return a numeric result without raising;
`get_encoder_value` never raises but returns no numeric result (`None`); and
`read_motor_shaft_status` returns the second reply byte when the reply holds
at least 2 bytes but raises `IndexError` on any shorter reply. -/
theorem C5_reads_decode_as_is (s : MKSServo42C) (reply : List Nat)
    (ha : s._address < 256) :
    (∃ x, MKSServo42C.read_pulses_received s reply = .ok ([s._address, 0x33], x)) ∧
    (∃ x, MKSServo42C.read_motor_shaft_angle s reply =
        .ok ([s._address, 0x36], x)) ∧
    (∃ x, MKSServo42C.read_motor_shaft_error_angle s reply =
        .ok ([s._address, 0x39], x)) ∧
    MKSServo42C.get_encoder_value s reply = .ok ([s._address, 0x30], none) ∧
    MKSServo42C.read_motor_shaft_status s reply =
      (if 2 ≤ reply.length then .ok ([s._address, 0x3E], reply.getD 1 0)
       else .error .indexError) := by
  refine ⟨⟨_, read_pulses_received_eq s reply ha⟩,
    ⟨_, read_motor_shaft_angle_eq s reply ha⟩,
    ⟨_, read_motor_shaft_error_angle_eq s reply ha⟩,
    get_encoder_value_eq s reply ha, ?_⟩
  rw [read_motor_shaft_status_eq s reply ha]
  rcases reply with _ | ⟨a, _ | ⟨b, t⟩⟩
  · rfl
  · rfl
  · have hlen : 2 ≤ (a :: b :: t).length := by
      simp only [List.length_cons]
      omega
    rw [if_pos hlen]
    rfl

/-- C5 witness: the amended statement at address `0xE0` on the 2-byte reply
`E0 05`. -/
theorem C5_reads_decode_as_is_witness :
    (∃ x, MKSServo42C.read_pulses_received e0Link [0xE0, 5] =
        .ok ([0xE0, 0x33], x)) ∧
    (∃ x, MKSServo42C.read_motor_shaft_angle e0Link [0xE0, 5] =
        .ok ([0xE0, 0x36], x)) ∧
    (∃ x, MKSServo42C.read_motor_shaft_error_angle e0Link [0xE0, 5] =
        .ok ([0xE0, 0x39], x)) ∧
    MKSServo42C.get_encoder_value e0Link [0xE0, 5] = .ok ([0xE0, 0x30], none) ∧
    MKSServo42C.read_motor_shaft_status e0Link [0xE0, 5] =
      (if 2 ≤ ([0xE0, 5] : List Nat).length
       then .ok ([0xE0, 0x3E], ([0xE0, 5] : List Nat).getD 1 0)
       else .error .indexError) :=
  C5_reads_decode_as_is e0Link [0xE0, 5] (by decide)

/-- C7 counterexample: `set_active_of_en_pin` does not block reading 2 reply
bytes — the source passes 3 to the transport read. -/
theorem C7_counterexample_read_len :
    readLenOf (MKSServo42C.set_active_of_en_pin e0Link 1) ≠ some 2 := by decide

/-- C7 (amended): after transmitting its frame, `set_active_of_en_pin`
(opcode 0x85) blocks reading exactly 3 reply bytes from the transport. -/
theorem C7_set_active_read_len (s : MKSServo42C) (v : Int)
    (ha : s._address < 256) (hv0 : 0 ≤ v) (hv1 : v < 256) :
    readLenOf (MKSServo42C.set_active_of_en_pin s v) = some 3 := by
  rw [set_active_of_en_pin_eq s v ha hv0 hv1]
  rfl

/-- C7 witness: the amended statement at address `0xE0`, active value 1. -/
theorem C7_set_active_read_len_witness :
    readLenOf (MKSServo42C.set_active_of_en_pin e0Link 1) = some 3 :=
  C7_set_active_read_len e0Link 1 (by decide) (by decide) (by decide)

/-- C9: on any reply of at most 1 byte (e.g. a complete timeout returning no
bytes), `read_pulses_received`, `read_motor_shaft_angle` and
`read_motor_shaft_error_angle` each return exactly 0: the payload slice
starting at byte 1 is empty and decodes to zero, indistinguishable from a
genuine zero reading. -/
theorem C9_short_reply_reads_zero (s : MKSServo42C) (reply : List Nat)
    (ha : s._address < 256) (hr : reply.length ≤ 1) :
    MKSServo42C.read_pulses_received s reply = .ok ([s._address, 0x33], 0) ∧
    MKSServo42C.read_motor_shaft_angle s reply = .ok ([s._address, 0x36], 0) ∧
    MKSServo42C.read_motor_shaft_error_angle s reply =
      .ok ([s._address, 0x39], 0) := by
  rcases reply with _ | ⟨b, _ | ⟨c, t⟩⟩
  · exact ⟨(read_pulses_received_eq s [] ha).trans rfl,
      (read_motor_shaft_angle_eq s [] ha).trans rfl,
      (read_motor_shaft_error_angle_eq s [] ha).trans rfl⟩
  · exact ⟨(read_pulses_received_eq s [b] ha).trans rfl,
      (read_motor_shaft_angle_eq s [b] ha).trans rfl,
      (read_motor_shaft_error_angle_eq s [b] ha).trans rfl⟩
  · simp at hr

/-- C9 witness: the theorem at address `0xE0` on the 1-byte reply `E0`. -/
theorem C9_short_reply_reads_zero_witness :
    MKSServo42C.read_pulses_received e0Link [0xE0] = .ok ([0xE0, 0x33], 0) ∧
    MKSServo42C.read_motor_shaft_angle e0Link [0xE0] = .ok ([0xE0, 0x36], 0) ∧
    MKSServo42C.read_motor_shaft_error_angle e0Link [0xE0] =
      .ok ([0xE0, 0x39], 0) :=
  C9_short_reply_reads_zero e0Link [0xE0] (by decide) (by decide)

/-- C10: a payload outside its wire-field range — a 1-byte value outside
`0..=255` for `set_subdivision`, `set_en_pin_status` or
`set_active_of_en_pin`, a speed whose byte (after the direction bit is
applied) falls outside `0..=255` for `move` and `move_to`, or a position
outside `0..=65535` for `move_to` — makes the operation raise
`OverflowError` from the byte conversion, with zero bytes written to the
transport. -/
theorem C10_overflow_before_write (s : MKSServo42C)
    (v sBad sCW sGood posBad pos2 : Int)
    (ha : s._address < 256)
    (hv : v < 0 ∨ 255 < v)
    (hsBad : sBad < 0 ∨ 255 < sBad)
    (hsCW : Int.lor sCW 0x80 < 0 ∨ 255 < Int.lor sCW 0x80)
    (hsGood0 : 0 ≤ sGood) (hsGood1 : sGood < 256)
    (hposBad : posBad < 0 ∨ 65535 < posBad) :
    MKSServo42C.set_subdivision s v = .error .overflowError ∧
    MKSServo42C.set_en_pin_status s v = .error .overflowError ∧
    MKSServo42C.set_active_of_en_pin s v = .error .overflowError ∧
    MKSServo42C.move s "CCW" sBad = .error .overflowError ∧
    MKSServo42C.move s "CW" sCW = .error .overflowError ∧
    MKSServo42C.move_to s "CCW" sBad pos2 = .error .overflowError ∧
    MKSServo42C.move_to s "CW" sCW pos2 = .error .overflowError ∧
    MKSServo42C.move_to s "CCW" sGood posBad = .error .overflowError ∧
    writesOf (MKSServo42C.set_subdivision s v) = [] ∧
    writesOf (MKSServo42C.set_en_pin_status s v) = [] ∧
    writesOf (MKSServo42C.set_active_of_en_pin s v) = [] ∧
    writesOf (MKSServo42C.move s "CCW" sBad) = [] ∧
    writesOf (MKSServo42C.move s "CW" sCW) = [] ∧
    writesOf (MKSServo42C.move_to s "CCW" sBad pos2) = [] ∧
    writesOf (MKSServo42C.move_to s "CW" sCW pos2) = [] ∧
    writesOf (MKSServo42C.move_to s "CCW" sGood posBad) = [] := by
  have haddr := toBytes1_ofNat s._address ha
  have hverr := toBytes1_err v hv
  have hsBerr := toBytes1_err sBad hsBad
  have hsCWerr := toBytes1_err (Int.lor sCW 0x80) hsCW
  have hsGok := toBytes1_ok sGood hsGood0 hsGood1
  have hperr := toBytes2_err posBad hposBad
  have h1 : MKSServo42C.set_subdivision s v = .error .overflowError := by
    unfold MKSServo42C.set_subdivision
    rw [haddr, hverr]
  have h2 : MKSServo42C.set_en_pin_status s v = .error .overflowError := by
    unfold MKSServo42C.set_en_pin_status
    rw [haddr, hverr]
  have h3 : MKSServo42C.set_active_of_en_pin s v = .error .overflowError := by
    unfold MKSServo42C.set_active_of_en_pin
    rw [haddr, hverr]
  have h4 : MKSServo42C.move s "CCW" sBad = .error .overflowError := by
    simp [MKSServo42C.move, haddr, hsBerr]
  have h5 : MKSServo42C.move s "CW" sCW = .error .overflowError := by
    simp [MKSServo42C.move, haddr, hsCWerr]
  have h6 : MKSServo42C.move_to s "CCW" sBad pos2 = .error .overflowError := by
    simp [MKSServo42C.move_to, hsBerr]
  have h7 : MKSServo42C.move_to s "CW" sCW pos2 = .error .overflowError := by
    simp [MKSServo42C.move_to, hsCWerr]
  have h8 : MKSServo42C.move_to s "CCW" sGood posBad = .error .overflowError := by
    simp [MKSServo42C.move_to, haddr, hsGok, hperr]
  refine ⟨h1, h2, h3, h4, h5, h6, h7, h8, ?_, ?_, ?_, ?_, ?_, ?_, ?_, ?_⟩ <;>
    simp [writesOf, h1, h2, h3, h4, h5, h6, h7, h8]

/-- C10 witness: the theorem at address `0xE0` with payloads 300 (1-byte
fields), speeds -1 and 300 (`300 | 0x80 = 428`), good speed 0, position
70000 out of range and 0 in range. -/
theorem C10_overflow_before_write_witness :
    MKSServo42C.set_subdivision e0Link 300 = .error .overflowError ∧
    MKSServo42C.set_en_pin_status e0Link 300 = .error .overflowError ∧
    MKSServo42C.set_active_of_en_pin e0Link 300 = .error .overflowError ∧
    MKSServo42C.move e0Link "CCW" (-1) = .error .overflowError ∧
    MKSServo42C.move e0Link "CW" 300 = .error .overflowError ∧
    MKSServo42C.move_to e0Link "CCW" (-1) 0 = .error .overflowError ∧
    MKSServo42C.move_to e0Link "CW" 300 0 = .error .overflowError ∧
    MKSServo42C.move_to e0Link "CCW" 0 70000 = .error .overflowError ∧
    writesOf (MKSServo42C.set_subdivision e0Link 300) = [] ∧
    writesOf (MKSServo42C.set_en_pin_status e0Link 300) = [] ∧
    writesOf (MKSServo42C.set_active_of_en_pin e0Link 300) = [] ∧
    writesOf (MKSServo42C.move e0Link "CCW" (-1)) = [] ∧
    writesOf (MKSServo42C.move e0Link "CW" 300) = [] ∧
    writesOf (MKSServo42C.move_to e0Link "CCW" (-1) 0) = [] ∧
    writesOf (MKSServo42C.move_to e0Link "CW" 300 0) = [] ∧
    writesOf (MKSServo42C.move_to e0Link "CCW" 0 70000) = [] :=
  C10_overflow_before_write e0Link 300 (-1) 300 0 70000 0 (by decide) (by decide)
    (by decide) (by decide) (by decide) (by decide) (by decide)
